import Mathlib

/-!
Verification of the RegCost regulatory-analysis pipeline.

This file gives a shallow embedding, in Lean 4, of the core computational
functions of the RegCost repository (Australian federal regulation stock
analysis) and proves / refutes the frozen claims about them.

Embedded source functions (Python), with their source locations:
* `parse_date`, `is_in_force_at`            — src/time_series_analysis.py
* `extract_year`, `count_bc`, `count_regdata`,
  `is_civil_aviation_exclusive`, `is_tariff_concession`, `should_exclude`,
  `IndustryClassifier.classify`, the time-series aggregation of `main`
                                            — src/analysis_mandala_aligned.py
* `BCRequirementsCounter.count_requirements` — src/bc_counter.py
* `RegDataRestrictionsCounter.count_restrictions` — src/regdata_counter.py
* `get_subtype`                             — src/generate_webapp_data.py

Modelling conventions:
* Strings are `List Char` (`Str`).  Characters are treated as ASCII, which is
  what the corpus contains; Python's `str.lower` is modelled by
  `Char.toLower`, `\w` by `isWordChar` (alphanumeric or underscore) and `\s`
  by `isSpaceChar`.
* The regex patterns used by the counters are all of the shape
  `\bword\b` / `\bword1\s+word2\b` (whole words separated by whitespace).
  Text is therefore modelled as its canonical decomposition into maximal
  runs of word characters and of non-word characters (`Tok.word` /
  `Tok.sep`, produced by `tokenize`).  Under that decomposition a
  `\bword\b` match of Python's `re.findall` is exactly a `Tok.word` run
  equal to `word`, and a `\bw1\s+w2\b` match of `re.sub`/`re.findall` is
  exactly a `word w1, sep s, word w2` triple whose separator run `s` is
  all whitespace.  The scanning functions `bigramCount`, `maskBigram` and
  `maskTrigram` reproduce the left-to-right, non-overlapping behaviour of
  `re.findall` / `re.sub` on those triples.
* Python dates are triples `(year, month, day)` compared lexicographically;
  `parse_date` is modelled on the `YYYY-MM-DD` core of the ISO string
  (the time-of-day part of an ISO datetime is ignored by the model, as
  `parse_date` only keeps the `.date()` part for well-formed inputs).
-/

namespace RegCost

/-- Strings of the model: lists of characters. -/
abbrev Str := List Char

/-- Shorthand turning a Lean string literal into the model's string type. -/
def strT (s : String) : Str := s.toList

/-- Python `str.lower` (ASCII model). -/
def lowerS (s : Str) : Str := s.map Char.toLower

/-- A regex word character `\w`: alphanumeric or underscore (ASCII model). -/
def isWordChar (c : Char) : Bool := c.isAlphanum || c == '_'

/-- A regex whitespace character `\s` (ASCII model). -/
def isSpaceChar (c : Char) : Bool :=
  c == ' ' || c == '\t' || c == '\n' || c == '\r' || c == '\x0b' || c == '\x0c'

/-- Python `hay.startswith(needle)` (arguments: needle, then haystack). -/
def startsWithL : Str → Str → Bool
  | [], _ => true
  | _ :: _, [] => false
  | a :: as, b :: bs => a == b && startsWithL as bs

/-- Python `needle in hay` (substring containment). -/
def containsSub (needle : Str) : Str → Bool
  | [] => startsWithL needle []
  | c :: cs => startsWithL needle (c :: cs) || containsSub needle cs

/-- Python `hay.endswith(needle)`. -/
def endsWithL (needle hay : Str) : Bool :=
  startsWithL needle.reverse hay.reverse

/-- Numeric value of a digit string (digits only, most significant first). -/
def digitsToNat (s : Str) : Nat :=
  s.foldl (fun a c => 10 * a + (c.toNat - 48)) 0

/-- Split a string on `'-'` (used to take a `YYYY-MM-DD` string apart). -/
def splitDash : Str → List Str
  | [] => [[]]
  | c :: cs =>
    let r := splitDash cs
    if c = '-' then [] :: r
    else
      match r with
      | g :: gs => (c :: g) :: gs
      | [] => [[c]]

/-! ## Dates — src/time_series_analysis.py -/

/-- A Python `datetime.date`: year, month, day, compared lexicographically. -/
structure Date where
  year : Nat
  month : Nat
  day : Nat
deriving DecidableEq, Repr

/-- Python `date` strict comparison `a < b` (lexicographic). -/
def dateLT (a b : Date) : Bool :=
  Nat.blt a.year b.year ||
    (a.year == b.year &&
      (Nat.blt a.month b.month ||
        (a.month == b.month && Nat.blt a.day b.day)))

/-- Python `date` comparison `a <= b`; dates are totally ordered, so
`a <= b` iff `not (b < a)`. -/
def dateLE (a b : Date) : Bool := ! dateLT b a

/-- Gregorian leap-year rule (as validated by `datetime.strptime`). -/
def isLeapYear (y : Nat) : Bool :=
  (y % 4 == 0 && y % 100 != 0) || y % 400 == 0

/-- Number of days of a month (months outside 1..12 are rejected earlier). -/
def daysInMonth (y m : Nat) : Nat :=
  if m = 2 then (if isLeapYear y then 29 else 28)
  else if m = 4 ∨ m = 6 ∨ m = 9 ∨ m = 11 then 30
  else 31

/-- Parse the `YYYY-MM-DD` core of a date string, with the range validation
`datetime.strptime(..., '%Y-%m-%d')` performs (each group 1..4 / 1..2
digits, year 1..9999, month 1..12, day within the month). -/
def parseYMD (s : Str) : Option Date :=
  match splitDash s with
  | [gy, gm, gd] =>
    if gy ≠ [] ∧ gm ≠ [] ∧ gd ≠ [] ∧
        (gy ++ gm ++ gd).all Char.isDigit ∧
        gy.length ≤ 4 ∧ gm.length ≤ 2 ∧ gd.length ≤ 2 then
      let y := digitsToNat gy
      let m := digitsToNat gm
      let d := digitsToNat gd
      if 1 ≤ y ∧ y ≤ 9999 ∧ 1 ≤ m ∧ m ≤ 12 ∧ 1 ≤ d ∧ d ≤ daysInMonth y m then
        some ⟨y, m, d⟩
      else none
    else none
  | _ => none

/-- `parse_date` (src/time_series_analysis.py, lines 117-127): `None` and
the empty string parse to nothing, otherwise the first ten characters are
parsed as `YYYY-MM-DD` (for an ISO datetime string this is its `.date()`
part); any parse failure yields `None` rather than an error. -/
def parseDate : Option Str → Option Date
  | none => none
  | some s => if s = [] then none else parseYMD (s.take 10)

/-! ## Documents -/

/-- A corpus document: the dictionary shape produced by `fetch_all_titles`
(src/time_series_analysis.py) and by the scraped-legislation loader.
Fields that a given record lacks are `none` / empty, matching
`doc.get(...)` semantics.  (The advisory `is_in_force` flag is not
modelled: no embedded function reads it.) -/
structure Doc where
  register_id : Str := []
  title : Str := []
  text : Str := []
  collection : Str := []
  making_date : Option Str := none
  commencement_date : Option Str := none
  repeal_date : Option Str := none
  year : Option Nat := none
deriving DecidableEq, Repr

/-- `re.search(r'[CF](\d{4})', register_id)`: the first position holding a
`'C'` or `'F'` immediately followed by four digits, anywhere in the
string; returns the value of those four digits.  Shared by
`extract_year` (src/analysis_mandala_aligned.py, lines 89-92) and the
`is_in_force_at` fallback (src/time_series_analysis.py, lines 153-156). -/
def extractYearCF : Str → Option Nat
  | [] => none
  | c :: cs =>
    if (c = 'C' ∨ c = 'F') ∧ (cs.take 4).length = 4 ∧ (cs.take 4).all Char.isDigit then
      some (digitsToNat (cs.take 4))
    else extractYearCF cs

/-- The commencement-date fallback chain inlined in `is_in_force_at`
(src/time_series_analysis.py, lines 138-158): the parsed
`commencement_date` field; else the parsed `making_date`; else January 1
of the API `year` field when present and truthy (non-zero); else January 1
of the four-digit year found after a `'C'` or `'F'` in `register_id`;
else no resolution.  (A register id carrying the digits `0000` would make
Python's `date(0, 1, 1)` raise; such ids do not occur in the register and
the model keeps the raw value.) -/
def resolveCommencement (doc : Doc) : Option Date :=
  match parseDate doc.commencement_date with
  | some c => some c
  | none =>
    match parseDate doc.making_date with
    | some m => some m
    | none =>
      match doc.year with
      | some y =>
        if y ≠ 0 then some ⟨y, 1, 1⟩
        else (extractYearCF doc.register_id).map (fun yr => ⟨yr, 1, 1⟩)
      | none => (extractYearCF doc.register_id).map (fun yr => ⟨yr, 1, 1⟩)

/-- The final in-force test of `is_in_force_at` given resolved dates
(src/time_series_analysis.py, lines 160-168): false when resolution
failed; false when `commencement > check_date`; false when a repeal date
exists and `repeal <= check_date`; true otherwise. -/
def inForceShell (commencement repeal : Option Date) (check : Date) : Bool :=
  match commencement with
  | none => false
  | some c =>
    if dateLT check c then false
    else
      match repeal with
      | some r => if dateLE r check then false else true
      | none => true

/-- `is_in_force_at` (src/time_series_analysis.py, lines 130-168). -/
def isInForceAt (doc : Doc) (check : Date) : Bool :=
  inForceShell (resolveCommencement doc) (parseDate doc.repeal_date) check

/-- Modelled from the claim text of C4, for comparison with the code: the
chain as the claim states it — `commencement_date` if parseable, else
`making_date`, else January 1 of the four-digit year after a LEADING
`'C'` or `'F'` in `register_id` — with no API `year` step. -/
def claimResolveCommencement (doc : Doc) : Option Date :=
  match parseDate doc.commencement_date with
  | some c => some c
  | none =>
    match parseDate doc.making_date with
    | some m => some m
    | none =>
      match doc.register_id with
      | [] => none
      | c :: rest =>
        if (c = 'C' ∨ c = 'F') ∧ (rest.take 4).length = 4 ∧
            (rest.take 4).all Char.isDigit then
          some ⟨digitsToNat (rest.take 4), 1, 1⟩
        else none

/-- The in-force test induced by the claim's resolution chain (C4). -/
def claimInForceAt (doc : Doc) (check : Date) : Bool :=
  inForceShell (claimResolveCommencement doc) (parseDate doc.repeal_date) check

/-- January 1 of the API `year` field when present and truthy (`if year:`). -/
def apiYearDate : Option Nat → Option Date
  | some y => if y ≠ 0 then some ⟨y, 1, 1⟩ else none
  | none => none

/-- The amended claim's resolution chain (C4, amended): `commencement_date`
if parseable; else `making_date` if parseable; else January 1 of the API
`year` field when present and non-zero; else January 1 of the four-digit
year following a `'C'` or `'F'` anywhere in `register_id`; else nothing.
Stated independently of `resolveCommencement` (as an `Option` alternative
chain) and proved equal to it. -/
def amendedResolveCommencement (doc : Doc) : Option Date :=
  (parseDate doc.commencement_date) <|>
    (parseDate doc.making_date) <|>
      (apiYearDate doc.year) <|>
        ((extractYearCF doc.register_id).map (fun yr => ⟨yr, 1, 1⟩))

/-! ## Token model of the `\b`-based regex counting

Text is decomposed into maximal runs of word characters (`Tok.word`) and of
non-word characters (`Tok.sep`).  A `\bw\b` match of `re.findall` is a
`Tok.word` run equal to `w`; a `\bw1\s+w2\b` match is a
`word w1, sep s, word w2` triple with `s` all whitespace (for the
`\bmay not\b` pattern of `count_regdata`, with `s` a single space).  The
scanners below reproduce `re`'s left-to-right, non-overlapping scan: after
a match they continue after the matched triple, after a failed attempt at a
word they continue with the following token. -/

/-- A token: a maximal run of word characters or of non-word characters. -/
inductive Tok where
  | word : Str → Tok
  | sep : Str → Tok
deriving DecidableEq, Repr

/-- Decompose a string into its alternating maximal `word`/`sep` runs. -/
def tokenize : Str → List Tok
  | [] => []
  | c :: cs =>
    let rest := tokenize cs
    if isWordChar c then
      match rest with
      | Tok.word w :: ts => Tok.word (c :: w) :: ts
      | _ => Tok.word [c] :: rest
    else
      match rest with
      | Tok.sep s :: ts => Tok.sep (c :: s) :: ts
      | _ => Tok.sep [c] :: rest

/-- `len(re.findall(r'\bw\b', text))`: the number of word runs equal to `w`. -/
def cw (w : Str) (toks : List Tok) : Nat :=
  toks.countP (fun t => decide (t = Tok.word w))

/-- Separator accepted by `\s+`: a non-empty all-whitespace run. -/
def isWSsep (s : Str) : Bool := !s.isEmpty && s.all isSpaceChar

/-- Separator accepted by a literal single space in the pattern
(`\bmay not\b` of `count_regdata`). -/
def isOneSpace (s : Str) : Bool := s == [' ']

/-- `len(re.findall(r'\ba\s+b\b', text))` (with `sepOk` giving the
separator shape): left-to-right count of non-overlapping
`word a, sep, word b` matches. -/
def bigramCount (sepOk : Str → Bool) (a b : Str) : List Tok → Nat
  | Tok.word w :: Tok.sep s :: Tok.word v :: rest =>
    if w = a ∧ sepOk s = true ∧ v = b then 1 + bigramCount sepOk a b rest
    else bigramCount sepOk a b (Tok.sep s :: Tok.word v :: rest)
  | _ :: rest => bigramCount sepOk a b rest
  | [] => 0

/-- `re.sub(r'\ba\s+b\b', r, text)`: replace each non-overlapping
`word a, sep, word b` match (left to right) by the single word run `r`.
Since the match is delimited by word boundaries, the runs around it are
separator runs, which stay in place — so the replacement is again a
well-formed token list. -/
def maskBigram (sepOk : Str → Bool) (a b r : Str) : List Tok → List Tok
  | Tok.word w :: Tok.sep s :: Tok.word v :: rest =>
    if w = a ∧ sepOk s = true ∧ v = b then Tok.word r :: maskBigram sepOk a b r rest
    else Tok.word w :: maskBigram sepOk a b r (Tok.sep s :: Tok.word v :: rest)
  | t :: rest => t :: maskBigram sepOk a b r rest
  | [] => []

/-- `re.sub(r'\ba\s+b\s+c\b', r, text)` — used by the
`no\s+longer\s+required` exclusion of `BCRequirementsCounter`. -/
def maskTrigram (sepOk : Str → Bool) (a b c r : Str) : List Tok → List Tok
  | Tok.word w :: Tok.sep s :: Tok.word v :: Tok.sep s2 :: Tok.word u :: rest =>
    if w = a ∧ sepOk s = true ∧ v = b ∧ sepOk s2 = true ∧ u = c then
      Tok.word r :: maskTrigram sepOk a b c r rest
    else
      Tok.word w :: maskTrigram sepOk a b c r (Tok.sep s :: Tok.word v :: Tok.sep s2 :: Tok.word u :: rest)
  | t :: rest => t :: maskTrigram sepOk a b c r rest
  | [] => []

/-! ## The two requirement counters of src/analysis_mandala_aligned.py -/

/-- The masking step of `count_bc` (lines 107-108): `must\s+not` then
`shall\s+not`, each replaced by `__NEG__`, applied to the lowered text. -/
def bcMaskMandala (toks : List Tok) : List Tok :=
  maskBigram isWSsep (strT "shall") (strT "not") (strT "__NEG__")
    (maskBigram isWSsep (strT "must") (strT "not") (strT "__NEG__") toks)

/-- `count_bc` (src/analysis_mandala_aligned.py, lines 102-112): 0 for empty
text; otherwise lower the text, mask `must not` / `shall not`, and sum the
whole-word counts of `must`, `shall`, `required` on the masked text. -/
def countBC (text : Str) : Nat :=
  if text = [] then 0
  else
    let m := bcMaskMandala (tokenize (lowerS text))
    cw (strT "must") m + cw (strT "shall") m + cw (strT "required") m

/-- `count_regdata` (src/analysis_mandala_aligned.py, lines 115-124): 0 for
empty text; otherwise lower the text, count `\bmay not\b` (literal single
space), mask those matches with `__X__`, then add the whole-word counts of
`shall`, `must`, `required`, `prohibited` on the masked text. -/
def countRegdata (text : Str) : Nat :=
  if text = [] then 0
  else
    let toks := tokenize (lowerS text)
    let m := maskBigram isOneSpace (strT "may") (strT "not") (strT "__X__") toks
    bigramCount isOneSpace (strT "may") (strT "not") toks +
      (cw (strT "shall") m + cw (strT "must") m + cw (strT "required") m +
        cw (strT "prohibited") m)

/-! ## The counter classes of src/bc_counter.py and src/regdata_counter.py -/

/-- Scanner for `collapseWS`; the flag records whether the previous
character was whitespace (i.e. we are inside a whitespace run that has
already emitted its single space). -/
def collapseWSAux : Bool → Str → Str
  | _, [] => []
  | inRun, c :: cs =>
    if isSpaceChar c then
      if inRun then collapseWSAux true cs
      else ' ' :: collapseWSAux true cs
    else c :: collapseWSAux false cs

/-- `re.sub(r'\s+', ' ', text)`: collapse each maximal whitespace run to a
single space (the `_preprocess_text` normalisation of both counter
classes). -/
def collapseWS (s : Str) : Str := collapseWSAux false s

/-- `config.BC_BINDING_WORDS` (src/config.py, line 36). -/
def bcBindingWords : List String := ["must", "shall", "required"]

/-- The single-word restriction terms of
`RegDataRestrictionsCounter.count_restrictions`:
`[w for w in config.REGDATA_RESTRICTION_WORDS if ' ' not in w]` over
`["shall", "must", "may not", "required", "prohibited"]`
(src/config.py, line 44). -/
def regdataSingleWords : List String := ["shall", "must", "required", "prohibited"]

/-- The six exclusion maskings of `BCRequirementsCounter._mask_exclusions`
(src/bc_counter.py, lines 32-39 and 51-58), applied in list order to the
preprocessed text, each replaced by `___EXCLUDED___`: `must\s+not`,
`shall\s+not`, `must\s+never`, `shall\s+never`, `not\s+required`,
`no\s+longer\s+required`. -/
def bcMaskAll (toks : List Tok) : List Tok :=
  let r := strT "___EXCLUDED___"
  maskTrigram isWSsep (strT "no") (strT "longer") (strT "required") r
    (maskBigram isWSsep (strT "not") (strT "required") r
      (maskBigram isWSsep (strT "shall") (strT "never") r
        (maskBigram isWSsep (strT "must") (strT "never") r
          (maskBigram isWSsep (strT "shall") (strT "not") r
            (maskBigram isWSsep (strT "must") (strT "not") r toks)))))

/-- The result dictionary of the counter classes: the `total` field and the
`by_word` per-term breakdown (the `details` context list is display-only
and not modelled). -/
structure CountResult where
  total : Nat
  by_word : List (String × Nat)
deriving DecidableEq, Repr

/-- `BCRequirementsCounter.count_requirements` (src/bc_counter.py, lines
60-106): empty text returns total 0 with empty breakdown; otherwise the
text is lowered and whitespace-normalised, the exclusions are masked, each
binding word is counted whole-word on the masked text, and the total is
the sum of the per-word counts. -/
def bcCountRequirements (text : Str) : CountResult :=
  if text = [] then ⟨0, []⟩
  else
    let m := bcMaskAll (tokenize (collapseWS (lowerS text)))
    let bw := bcBindingWords.map (fun w => (w, cw w.toList m))
    ⟨(bw.map Prod.snd).sum, bw⟩

/-- `RegDataRestrictionsCounter.count_restrictions` (src/regdata_counter.py,
lines 48-107): empty text returns total 0 with empty breakdown; otherwise
the text is lowered and whitespace-normalised, `may\s+not` is counted and
then masked with `___COUNTED___`, each single restriction word is counted
whole-word on the masked text, and the total is the sum of the per-word
counts (the `may not` bucket first, matching dict insertion order). -/
def regdataCountRestrictions (text : Str) : CountResult :=
  if text = [] then ⟨0, []⟩
  else
    let toks := tokenize (collapseWS (lowerS text))
    let c0 := bigramCount isWSsep (strT "may") (strT "not") toks
    let m := maskBigram isWSsep (strT "may") (strT "not") (strT "___COUNTED___") toks
    let bw := ("may not", c0) :: regdataSingleWords.map (fun w => (w, cw w.toList m))
    ⟨(bw.map Prod.snd).sum, bw⟩

/-! ## Exclusion filter — src/analysis_mandala_aligned.py, lines 32-82 -/

/-- `is_civil_aviation_exclusive` (lines 32-71).  Note the mixed casing of
the source: the `'AD/' in title` / `'CAO ' in title` substring tests and
the `title.startswith('ad/')` / `title.startswith('cao ')` tests run on
the raw title, the remaining substring tests on the lowered title. -/
def isCivilAviationExclusive (doc : Doc) : Bool :=
  let title := doc.title
  let titleLower := lowerS title
  containsSub (strT "AD/") title || startsWithL (strT "ad/") title ||
  containsSub (strT "CAO ") title || startsWithL (strT "cao ") title ||
  containsSub (strT "casa ") titleLower || containsSub (strT "civil aviation safety") titleLower ||
  containsSub (strT "civil aviation") titleLower ||
  containsSub (strT "aviation transport security") titleLower ||
  containsSub (strT "airspace") titleLower ||
  containsSub (strT "aircraft noise") titleLower ||
  containsSub (strT "air navigation") titleLower ||
  containsSub (strT "airworthiness") titleLower ||
  containsSub (strT "manual of standards part") titleLower

/-- `is_tariff_concession` (lines 74-77). -/
def isTariffConcession (doc : Doc) : Bool :=
  containsSub (strT "tariff concession") (lowerS doc.title)

/-- `should_exclude` (lines 80-82). -/
def shouldExclude (doc : Doc) : Bool :=
  isCivilAviationExclusive doc || isTariffConcession doc

/-! ## Sub-type classifier — src/generate_webapp_data.py, lines 120-198 -/

/-- `get_subtype`: the ordered first-match-wins cascade of title tests —
aviation tags, then named administrative categories, then the Act check,
then generic instrument keywords, default `"Other Instrument"`. -/
def getSubtype (doc : Doc) : String :=
  let title := doc.title
  let titleLower := lowerS title
  if containsSub (strT "AD/") title || startsWithL (strT "ad/") title then "Aviation - Airworthiness Directive"
  else if containsSub (strT "CAO ") title || startsWithL (strT "cao ") title then "Aviation - Civil Aviation Order"
  else if containsSub (strT "casa ") titleLower || containsSub (strT "civil aviation safety") titleLower then "Aviation - CASA Instrument"
  else if containsSub (strT "civil aviation") titleLower then "Aviation - Civil Aviation"
  else if containsSub (strT "aviation transport security") titleLower then "Aviation - Transport Security"
  else if containsSub (strT "airspace") titleLower then "Aviation - Airspace"
  else if containsSub (strT "aircraft noise") titleLower then "Aviation - Aircraft Noise"
  else if containsSub (strT "air navigation") titleLower then "Aviation - Air Navigation"
  else if containsSub (strT "airworthiness") titleLower then "Aviation - Airworthiness"
  else if containsSub (strT "manual of standards part") titleLower then "Aviation - Manual of Standards"
  else if containsSub (strT "tariff concession") titleLower then "Tariff Concession Order"
  else if containsSub (strT "statement of principles") titleLower then "Statement of Principles (RMA)"
  else if containsSub (strT "licence area plan") titleLower then "Licence Area Plan"
  else if containsSub (strT "native title") titleLower then "Native Title"
  else if containsSub (strT "superannuation") titleLower && containsSub (strT "family law") titleLower then "Superannuation Family Law"
  else if containsSub (strT "biosecurity") titleLower then "Biosecurity"
  else if containsSub (strT "therapeutic goods") titleLower then "Therapeutic Goods"
  else if containsSub (strT "export control") titleLower then "Export Control"
  else if lowerS doc.collection = strT "act" then "Act"
  else if containsSub (strT " regulation") titleLower || endsWithL (strT " regulations") titleLower then "Regulation"
  else if containsSub (strT " determination") titleLower then "Determination"
  else if containsSub (strT " order") titleLower then "Order"
  else if containsSub (strT " rules") titleLower then "Rules"
  else if containsSub (strT " direction") titleLower then "Direction"
  else if containsSub (strT " notice") titleLower then "Notice"
  else if containsSub (strT " declaration") titleLower then "Declaration"
  else if containsSub (strT " standard") titleLower || containsSub (strT "accounting standard") titleLower then "Standard"
  else if containsSub (strT "exemption") titleLower then "Exemption"
  else if containsSub (strT "approval") titleLower then "Approval"
  else if containsSub (strT " instrument") titleLower then "Instrument"
  else if containsSub (strT "proclamation") titleLower then "Proclamation"
  else "Other Instrument"

/-! ## Industry classifier — src/analysis_mandala_aligned.py, lines 131-184

The per-division patterns are `\b(kw1|kw2|...)\b` with `re.IGNORECASE`.
A `findall` match at a position therefore requires: a word boundary
before the position, one alternative (tried in keyword-list order, as
Python's alternation backtracks in order) matching there
case-insensitively, and a word boundary after it; scanning is
left-to-right and non-overlapping.  `findCount` below reproduces this. -/

/-- Try the keywords in order at the head of `s`: the first whose
characters match and whose end falls on a word boundary wins; returns the
number of characters consumed.  All division keywords are non-empty,
start and end with a word character, and are stored lowercased; `s` is
lowercased text. -/
def tryMatchKw (kws : List Str) (s : Str) : Option Nat :=
  match kws with
  | [] => none
  | k :: rest =>
    if !k.isEmpty && startsWithL k s &&
        (match s.drop k.length with
         | [] => true
         | c :: _ => !isWordChar c) then
      some k.length
    else tryMatchKw rest s

/-- Scanner for `findCount`: `prev` records whether the previous character
was a word character (so that the leading `\b` can be checked); the fuel
is the remaining string length.  After a match the scan resumes after the
matched keyword, whose final character is a word character. -/
def goCount (kws : List Str) : Nat → Bool → Str → Nat
  | 0, _, _ => 0
  | _ + 1, _, [] => 0
  | fuel + 1, prev, c :: cs =>
    if prev then goCount kws fuel (isWordChar c) cs
    else
      match tryMatchKw kws (c :: cs) with
      | some n => 1 + goCount kws fuel true (cs.drop (n - 1))
      | none => goCount kws fuel (isWordChar c) cs

/-- `len(pattern.findall(text))` for a `\b(kw1|kw2|...)\b` pattern. -/
def findCount (kws : List Str) (s : Str) : Nat := goCount kws s.length false s

/-- `ANZSIC_DIVISIONS` (src/analysis_mandala_aligned.py, lines 131-151), in
the source dict's insertion order (which is the iteration order of
`self.patterns` and hence the tie-breaking order of `classify`). -/
def anzsicDivisions : List (String × List String) := [
  ("O", ["government", "public administration", "defence", "defense", "national security", "intelligence", "military", "ADF", "AFP", "ASIO", "police", "law enforcement", "emergency", "fire service", "correctional", "prison", "border", "customs", "immigration", "public service", "commonwealth", "federal", "minister"]),
  ("Q", ["health", "medical", "hospital", "healthcare", "patient", "pharmaceutical", "medicine", "therapy", "therapeutic", "drug", "aged care", "disability", "mental health", "medicare", "PBS", "NDIS", "nursing", "dental", "pathology", "diagnostic"]),
  ("K", ["banking", "bank", "financial", "insurance", "credit", "loan", "investment", "fund", "superannuation", "pension", "APRA", "ASIC", "prudential", "ADI", "securities", "money", "currency", "payment"]),
  ("D", ["electricity", "electric", "power", "energy", "gas", "water", "waste", "sewage", "renewable", "solar", "wind", "hydro", "nuclear", "grid", "transmission", "pipeline", "utility"]),
  ("I", ["transport", "maritime", "shipping", "rail", "road", "port", "cargo", "freight", "passenger", "navigation", "seafarer", "postal", "mail", "logistics", "vehicle"]),
  ("J", ["telecommunications", "broadcasting", "media", "internet", "television", "radio", "radiocommunications", "spectrum", "mobile", "telephone", "broadband", "communications", "digital"]),
  ("A", ["agriculture", "farming", "farm", "crop", "livestock", "cattle", "sheep", "dairy", "poultry", "fishing", "fisheries", "aquaculture", "forestry", "timber", "rural", "primary producer", "grain", "beef", "wool", "wheat", "vineyard", "biosecurity", "quarantine"]),
  ("B", ["mining", "mine", "mineral", "coal", "iron ore", "gold", "copper", "uranium", "petroleum", "oil", "gas", "exploration", "extraction", "quarry", "resources", "offshore", "drilling", "seismic"]),
  ("C", ["manufacturing", "factory", "industrial", "processing", "automotive", "chemical", "textile", "machinery", "equipment"]),
  ("P", ["education", "school", "university", "training", "student", "teacher", "academic", "higher education", "tertiary", "vocational", "TAFE", "qualification", "curriculum"]),
  ("E", ["construction", "building", "infrastructure", "contractor", "architect", "builder", "project", "site", "development"]),
  ("R", ["arts", "culture", "recreation", "sport", "entertainment", "museum", "library", "heritage", "creative", "gambling", "gaming", "lottery", "national park", "environment"]),
  ("F", ["wholesale", "import", "export", "trade", "dealer", "distributor"]),
  ("G", ["retail", "shop", "store", "consumer", "merchandise"]),
  ("H", ["hotel", "accommodation", "tourism", "restaurant", "food service", "hospitality", "catering", "tourist", "visitor"]),
  ("L", ["rental", "lease", "property", "real estate", "land", "housing", "tenancy", "landlord", "native title"]),
  ("M", ["professional", "consulting", "technical", "scientific", "research", "legal", "accounting", "veterinary", "design"]),
  ("N", ["administrative", "support services", "staffing", "recruitment", "office", "security services", "cleaning", "maintenance"]),
  ("S", ["repair", "personal", "community", "religious", "civic", "union", "association", "organisation"])]

/-- `CROSS_CUTTING_KEYWORDS` (line 153). -/
def crossCuttingKeywords : List String :=
  ["corporations", "competition", "consumer", "workplace", "employment",
   "fair work", "privacy", "taxation", "GST", "income tax"]

/-- Keyword list lowercased for the case-insensitive pattern. -/
def divPattern (kws : List String) : List Str := kws.map (fun k => lowerS k.toList)

/-- The per-division score of `IndustryClassifier.classify` (lines
170-175): ten times the title matches plus the matches in the first 3000
characters of the text; only divisions with a positive score enter the
`scores` dict, in the canonical division order. -/
def scoreList (title text : Str) : List (String × Nat) :=
  anzsicDivisions.filterMap (fun p =>
    let sc := 10 * findCount (divPattern p.2) (lowerS title) +
                findCount (divPattern p.2) (lowerS (text.take 3000))
    if 0 < sc then some (p.1, sc) else none)

/-- Python's `max(scores, key=scores.get)` as a left fold over the entries
in iteration order: the accumulator is replaced only by a strictly
greater score, so the first maximum is kept. -/
def pickMax : Option (String × Nat) → List (String × Nat) → Option (String × Nat)
  | acc, [] => acc
  | none, p :: rest => pickMax (some p) rest
  | some q, p :: rest => pickMax (if q.2 < p.2 then some p else some q) rest

/-- `IndustryClassifier.classify` (lines 168-184): the positive-scoring
division with the highest score (first maximum in canonical order); if
none scores, `"X"` when the cross-cutting pattern matches the combined
`title + " " + text[:3000]`, else `"U"`. -/
def classifyIndustry (title text : Str) : String :=
  match pickMax none (scoreList title text) with
  | some p => p.1
  | none =>
    if 0 < findCount (divPattern crossCuttingKeywords)
        (lowerS (title ++ [' '] ++ text.take 3000)) then "X"
    else "U"

/-! ## Time-series aggregation — src/analysis_mandala_aligned.py `main`,
lines 399-441 -/

/-- `get_legislation_type` (lines 95-99). -/
def getLegislationType (collection : Str) : String :=
  if lowerS collection = strT "act" then "primary" else "secondary"

/-- One entry of the `processed` list built in `main` (lines 400-421).
The `title`/`text` fields carried along in the source are not read by the
per-year aggregation and are omitted here. -/
structure PDoc where
  year : Nat
  ltype : String
  bc : Nat
  regdata : Nat
deriving DecidableEq, Repr

/-- The `processed` list of `main` (lines 399-421): excluded documents are
filtered out (lines 380), then each document with an extractable,
truthy year is mapped to its year, legislation type and two counts. -/
def processDocs (docs : List Doc) : List PDoc :=
  (docs.filter (fun d => !shouldExclude d)).filterMap (fun d =>
    match extractYearCF d.register_id with
    | none => none
    | some y =>
      if y = 0 then none
      else some { year := y,
                  ltype := getLegislationType d.collection,
                  bc := countBC d.text,
                  regdata := countRegdata d.text })

/-- The per-cutoff stats dict of `main` (lines 430-439): document count,
BC total and RegData total for primary and for secondary legislation. -/
structure YearStats where
  pCount : Nat
  pBc : Nat
  pReg : Nat
  sCount : Nat
  sBc : Nat
  sReg : Nat
deriving DecidableEq, Repr

/-- The zero-initialised stats (line 430-433). -/
def emptyStats : YearStats := ⟨0, 0, 0, 0, 0, 0⟩

/-- One step of the aggregation loop (lines 435-439): add the document to
its legislation-type bucket. -/
def addPDoc (s : YearStats) (d : PDoc) : YearStats :=
  if d.ltype = "primary" then
    { s with pCount := s.pCount + 1, pBc := s.pBc + d.bc, pReg := s.pReg + d.regdata }
  else
    { s with sCount := s.sCount + 1, sBc := s.sBc + d.bc, sReg := s.sReg + d.regdata }

/-- The aggregation of `main` for one cutoff year (lines 427-441): filter
the processed documents to those with `year <= cutoff` and fold the
bucket update over them. -/
def aggregateMandala (docs : List Doc) (cutoff : Nat) : YearStats :=
  ((processDocs docs).filter (fun d => decide (d.year ≤ cutoff))).foldl addPDoc emptyStats

/-! ## Lemmas about the token scanners -/

section ScannerLemmas

variable (sepOk : Str → Bool) (a b r : Str)

theorem maskBigram_nil : maskBigram sepOk a b r [] = [] := rfl

theorem maskBigram_sep_cons (s : Str) (l : List Tok) :
    maskBigram sepOk a b r (Tok.sep s :: l) = Tok.sep s :: maskBigram sepOk a b r l := rfl

theorem maskBigram_triple (w1 s v : Str) (rest : List Tok) :
    maskBigram sepOk a b r (Tok.word w1 :: Tok.sep s :: Tok.word v :: rest) =
      if w1 = a ∧ sepOk s = true ∧ v = b then
        Tok.word r :: maskBigram sepOk a b r rest
      else
        Tok.word w1 :: maskBigram sepOk a b r (Tok.sep s :: Tok.word v :: rest) := rfl

/-- On a shape that is not a potential bigram match the mask keeps the head
token. -/
theorem maskBigram_default (head : Tok) (rest : List Tok)
    (hns : ∀ (w s v : Str) (rest1 : List Tok),
      head = Tok.word w → rest = Tok.sep s :: Tok.word v :: rest1 → False) :
    maskBigram sepOk a b r (head :: rest) = head :: maskBigram sepOk a b r rest := by
  match head, rest with
  | Tok.sep s, rest => rfl
  | Tok.word w1, [] => rfl
  | Tok.word w1, Tok.word w2 :: rest => rfl
  | Tok.word w1, Tok.sep s :: [] => rfl
  | Tok.word w1, Tok.sep s :: Tok.sep s2 :: rest => rfl
  | Tok.word w1, Tok.sep s :: Tok.word v :: rest1 => exact (hns w1 s v rest1 rfl rfl).elim

/-- Masking a word-headed token list yields a word-headed token list whose
head word is the original head word or the replacement. -/
theorem maskBigram_head_word (v : Str) (rest : List Tok) :
    ∃ u t, maskBigram sepOk a b r (Tok.word v :: rest) = Tok.word u :: t ∧ (u = v ∨ u = r) := by
  match rest with
  | [] => exact ⟨v, _, rfl, Or.inl rfl⟩
  | Tok.word w2 :: rest2 => exact ⟨v, _, rfl, Or.inl rfl⟩
  | Tok.sep s2 :: [] => exact ⟨v, _, rfl, Or.inl rfl⟩
  | Tok.sep s2 :: Tok.sep s3 :: rest2 => exact ⟨v, _, rfl, Or.inl rfl⟩
  | Tok.sep s2 :: Tok.word v2 :: rest2 =>
    rw [maskBigram_triple]
    by_cases hc : v = a ∧ sepOk s2 = true ∧ v2 = b
    · rw [if_pos hc]; exact ⟨r, _, rfl, Or.inr rfl⟩
    · rw [if_neg hc]; exact ⟨v, _, rfl, Or.inl rfl⟩

/-- A sep-headed mask output comes from a sep-headed input. -/
theorem maskBigram_eq_sep_cons (toks : List Tok) (s : Str) (X : List Tok)
    (h : maskBigram sepOk a b r toks = Tok.sep s :: X) :
    ∃ l, toks = Tok.sep s :: l ∧ X = maskBigram sepOk a b r l := by
  match toks with
  | [] => exact absurd h (by simp [maskBigram_nil])
  | Tok.word v :: rest =>
    obtain ⟨u, t, he, -⟩ := maskBigram_head_word sepOk a b r v rest
    rw [he] at h
    exact absurd h (by simp)
  | Tok.sep s2 :: rest =>
    rw [maskBigram_sep_cons] at h
    obtain ⟨h1, h2⟩ := List.cons.injEq .. ▸ h
    exact ⟨rest, by rw [Tok.sep.injEq] at h1; rw [h1], h2.symm⟩

/-- A word-headed mask output comes from a word-headed input. -/
theorem maskBigram_eq_word_cons (toks : List Tok) (u : Str) (X : List Tok)
    (h : maskBigram sepOk a b r toks = Tok.word u :: X) :
    ∃ v l, toks = Tok.word v :: l := by
  match toks with
  | [] => exact absurd h (by simp [maskBigram_nil])
  | Tok.word v :: rest => exact ⟨v, rest, rfl⟩
  | Tok.sep s2 :: rest => rw [maskBigram_sep_cons] at h; exact absurd h (by simp)

theorem bigramCount_nil : bigramCount sepOk a b [] = 0 := rfl

theorem bigramCount_sep_cons (s : Str) (l : List Tok) :
    bigramCount sepOk a b (Tok.sep s :: l) = bigramCount sepOk a b l := rfl

theorem bigramCount_word_word (w1 u : Str) (t : List Tok) :
    bigramCount sepOk a b (Tok.word w1 :: Tok.word u :: t) =
      bigramCount sepOk a b (Tok.word u :: t) := rfl

theorem bigramCount_triple (w1 s v : Str) (rest : List Tok) :
    bigramCount sepOk a b (Tok.word w1 :: Tok.sep s :: Tok.word v :: rest) =
      if w1 = a ∧ sepOk s = true ∧ v = b then 1 + bigramCount sepOk a b rest
      else bigramCount sepOk a b (Tok.sep s :: Tok.word v :: rest) := rfl

/-- A word that cannot start a match is skipped by the scanner. -/
theorem bigramCount_word_cons (w1 : Str) (hw : w1 ≠ a) (l : List Tok) :
    bigramCount sepOk a b (Tok.word w1 :: l) = bigramCount sepOk a b l := by
  match l with
  | [] => rfl
  | Tok.word w2 :: rest => rfl
  | Tok.sep s :: [] => rfl
  | Tok.sep s :: Tok.sep s2 :: rest => rfl
  | Tok.sep s :: Tok.word v :: rest =>
    rw [bigramCount_triple, if_neg]
    rintro ⟨h1, -, -⟩
    exact hw h1

/-- A match-free list stays match-free when its head is dropped. -/
theorem bigramCount_tail_zero (t : Tok) (l : List Tok)
    (h : bigramCount sepOk a b (t :: l) = 0) : bigramCount sepOk a b l = 0 := by
  match t, l with
  | Tok.sep s, l => rw [bigramCount_sep_cons] at h; exact h
  | Tok.word w1, [] => rfl
  | Tok.word w1, Tok.word w2 :: rest => rw [bigramCount_word_word] at h; exact h
  | Tok.word w1, Tok.sep s :: [] => rfl
  | Tok.word w1, Tok.sep s :: Tok.sep s2 :: rest => exact h
  | Tok.word w1, Tok.sep s :: Tok.word v :: rest =>
    rw [bigramCount_triple] at h
    by_cases hc : w1 = a ∧ sepOk s = true ∧ v = b
    · rw [if_pos hc] at h; omega
    · rw [if_neg hc] at h; exact h

/-- Master step lemma: prepending a token to a match-free list keeps it
match-free, provided the new token does not create a match at the head. -/
theorem bigramCount_cons_zero (t : Tok) (N : List Tok)
    (h0 : bigramCount sepOk a b N = 0)
    (hno : ∀ (w1 s u : Str) (t2 : List Tok), t = Tok.word w1 →
      N = Tok.sep s :: Tok.word u :: t2 → ¬(w1 = a ∧ sepOk s = true ∧ u = b)) :
    bigramCount sepOk a b (t :: N) = 0 := by
  match t, N with
  | Tok.sep s, N => rw [bigramCount_sep_cons]; exact h0
  | Tok.word w1, [] => rfl
  | Tok.word w1, Tok.word u :: t2 => rw [bigramCount_word_word]; exact h0
  | Tok.word w1, Tok.sep s :: [] => rfl
  | Tok.word w1, Tok.sep s :: Tok.sep s2 :: t2 => exact h0
  | Tok.word w1, Tok.sep s :: Tok.word u :: t2 =>
    rw [bigramCount_triple, if_neg (hno w1 s u t2 rfl rfl)]
    exact h0

/-- After `re.sub(r'\ba\s+b\b', r, ·)` no `a … b` bigram match remains,
provided the replacement word is neither `a` nor `b` (C2/C3: the negation
bigrams are masked exhaustively before counting). -/
theorem bigramCount_maskBigram_self (ha : r ≠ a) (hb : r ≠ b) (toks : List Tok) :
    bigramCount sepOk a b (maskBigram sepOk a b r toks) = 0 := by
  induction toks using maskBigram.induct sepOk a b r with
  | case1 w1 s v rest hc ih =>
    rw [maskBigram_triple, if_pos hc, bigramCount_word_cons sepOk a b r ha]
    exact ih
  | case2 w1 s v rest hc ih =>
    rw [maskBigram_triple, if_neg hc, maskBigram_sep_cons]
    rw [maskBigram_sep_cons] at ih
    refine bigramCount_cons_zero sepOk a b _ _ ih ?_
    rintro w1x sx ux t2 he1 he2 hm
    obtain ⟨u, t, hu, huv⟩ := maskBigram_head_word sepOk a b r v rest
    rw [hu] at he2
    simp only [List.cons.injEq, Tok.sep.injEq, Tok.word.injEq] at he2 he1
    obtain ⟨hs, hux, -⟩ := he2
    subst hs; subst hux; subst he1
    obtain ⟨hma, hms, hmb⟩ := hm
    rcases huv with huv | huv
    · exact hc ⟨hma, hms, by rw [← huv]; exact hmb⟩
    · exact hb (by rw [← huv]; exact hmb)
  | case3 head rest hns ih =>
    rw [maskBigram_default sepOk a b r head rest hns]
    refine bigramCount_cons_zero sepOk a b _ _ ih ?_
    rintro w1x sx ux t2 he1 he2 -
    obtain ⟨l, hrest, hX⟩ := maskBigram_eq_sep_cons sepOk a b r rest sx (Tok.word ux :: t2) he2
    obtain ⟨vx, l2, hl⟩ := maskBigram_eq_word_cons sepOk a b r l ux t2 hX.symm
    exact hns w1x sx vx l2 he1 (by rw [hrest, hl])
  | case4 => rfl

/-- Masking a different bigram cannot create an `a … b` match, provided the
replacement word is neither `a` nor `b` (used to push match-freeness
through a second masking pass). -/
theorem bigramCount_maskBigram_pres (sepOk2 : Str → Bool) (a2 b2 : Str)
    (ha : r ≠ a) (hb : r ≠ b) (toks : List Tok)
    (h : bigramCount sepOk a b toks = 0) :
    bigramCount sepOk a b (maskBigram sepOk2 a2 b2 r toks) = 0 := by
  induction toks using maskBigram.induct sepOk2 a2 b2 r with
  | case1 w1 s v rest hc ih =>
    rw [maskBigram_triple, if_pos hc, bigramCount_word_cons sepOk a b r ha]
    exact ih (bigramCount_tail_zero sepOk a b _ _
      (bigramCount_tail_zero sepOk a b _ _ (bigramCount_tail_zero sepOk a b _ _ h)))
  | case2 w1 s v rest hc ih =>
    have htl : bigramCount sepOk a b (Tok.sep s :: Tok.word v :: rest) = 0 :=
      bigramCount_tail_zero sepOk a b _ _ h
    rw [maskBigram_triple, if_neg hc, maskBigram_sep_cons]
    rw [maskBigram_sep_cons] at ih
    refine bigramCount_cons_zero sepOk a b _ _ (ih htl) ?_
    rintro w1x sx ux t2 he1 he2 hm
    obtain ⟨u, t, hu, huv⟩ := maskBigram_head_word sepOk2 a2 b2 r v rest
    rw [hu] at he2
    simp only [List.cons.injEq, Tok.sep.injEq, Tok.word.injEq] at he2 he1
    obtain ⟨hs, hux, -⟩ := he2
    subst hs; subst hux; subst he1
    obtain ⟨hma, hms, hmb⟩ := hm
    rcases huv with huv | huv
    · have hvb : v = b := by rw [← huv]; exact hmb
      rw [bigramCount_triple, if_pos ⟨hma, hms, hvb⟩] at h
      omega
    · exact hb (by rw [← huv]; exact hmb)
  | case3 head rest hns ih =>
    rw [maskBigram_default sepOk2 a2 b2 r head rest hns]
    refine bigramCount_cons_zero sepOk a b _ _
      (ih (bigramCount_tail_zero sepOk a b _ _ h)) ?_
    rintro w1x sx ux t2 he1 he2 -
    obtain ⟨l, hrest, hX⟩ := maskBigram_eq_sep_cons sepOk2 a2 b2 r rest sx (Tok.word ux :: t2) he2
    obtain ⟨vx, l2, hl⟩ := maskBigram_eq_word_cons sepOk2 a2 b2 r l ux t2 hX.symm
    exact hns w1x sx vx l2 he1 (by rw [hrest, hl])
  | case4 => rfl

theorem cw_nil (w : Str) : cw w [] = 0 := rfl

theorem cw_cons (w : Str) (t : Tok) (l : List Tok) :
    cw w (t :: l) = cw w l + (if t = Tok.word w then 1 else 0) := by
  simp [cw, List.countP_cons]

/-- Masking a bigram whose words and replacement all differ from `w` leaves
the whole-word count of `w` unchanged (C3/C9: masking `may not` does not
change the counts of the single restriction words). -/
theorem cw_maskBigram_eq (w : Str) (hwa : a ≠ w) (hwb : b ≠ w) (hwr : r ≠ w)
    (toks : List Tok) :
    cw w (maskBigram sepOk a b r toks) = cw w toks := by
  induction toks using maskBigram.induct sepOk a b r with
  | case1 w1 s v rest hc ih =>
    rw [maskBigram_triple, if_pos hc]
    obtain ⟨hw1, -, hv⟩ := hc
    rw [cw_cons, cw_cons, cw_cons, cw_cons, ih, hw1, hv]
    simp [hwa, hwb, hwr]
  | case2 w1 s v rest hc ih =>
    rw [maskBigram_triple, if_neg hc, cw_cons, cw_cons, ih]
  | case3 head rest hns ih =>
    rw [maskBigram_default sepOk a b r head rest hns, cw_cons, cw_cons, ih]
  | case4 => rfl

/-- Masking never increases a whole-word count other than the
replacement's (C9: BC masking only removes occurrences). -/
theorem cw_maskBigram_le (w : Str) (hwr : r ≠ w) (toks : List Tok) :
    cw w (maskBigram sepOk a b r toks) ≤ cw w toks := by
  induction toks using maskBigram.induct sepOk a b r with
  | case1 w1 s v rest hc ih =>
    rw [maskBigram_triple, if_pos hc]
    rw [cw_cons, cw_cons, cw_cons, cw_cons]
    have e0 : (if Tok.word r = Tok.word w then 1 else 0) = 0 := by simp [hwr]
    rw [e0]
    omega
  | case2 w1 s v rest hc ih =>
    rw [maskBigram_triple, if_neg hc, cw_cons, cw_cons]
    omega
  | case3 head rest hns ih =>
    rw [maskBigram_default sepOk a b r head rest hns, cw_cons, cw_cons]
    omega
  | case4 => exact Nat.le_refl _

end ScannerLemmas

/-! ## Lemmas about `pickMax` (Python's `max(scores, key=scores.get)`) -/

theorem pickMax_none_nil : pickMax none [] = none := rfl

theorem pickMax_none_cons (p : String × Nat) (rest : List (String × Nat)) :
    pickMax none (p :: rest) = pickMax (some p) rest := rfl

theorem pickMax_some_cons (q p : String × Nat) (rest : List (String × Nat)) :
    pickMax (some q) (p :: rest) =
      pickMax (if q.2 < p.2 then some p else some q) rest := rfl

/-- Characterisation of a left-to-right maximum scan seeded with `q`: it
returns an element (or `q`) that weakly dominates everything and strictly
dominates everything to its left — i.e. the first maximum. -/
theorem pickMax_some_spec (l : List (String × Nat)) (q : String × Nat) :
    ∃ res, pickMax (some q) l = some res ∧
      ((res = q ∧ ∀ p ∈ l, p.2 ≤ q.2) ∨
       (∃ l₁ l₂, l = l₁ ++ res :: l₂ ∧ q.2 < res.2 ∧
         (∀ p ∈ l₁, p.2 < res.2) ∧ (∀ p ∈ l₂, p.2 ≤ res.2))) := by
  induction l generalizing q with
  | nil => exact ⟨q, rfl, Or.inl ⟨rfl, by simp⟩⟩
  | cons p rest ih =>
    by_cases hqp : q.2 < p.2
    · obtain ⟨res, hres, hspec⟩ := ih p
      refine ⟨res, by rw [pickMax_some_cons, if_pos hqp]; exact hres, Or.inr ?_⟩
      rcases hspec with ⟨hrq, hall⟩ | ⟨l₁, l₂, hsplit, hlt, hbefore, hafter⟩
      · subst hrq
        exact ⟨[], rest, rfl, hqp, by simp, hall⟩
      · refine ⟨p :: l₁, l₂, by rw [hsplit, List.cons_append], Nat.lt_trans hqp hlt, ?_, hafter⟩
        intro x hx
        rcases List.mem_cons.mp hx with hx | hx
        · rw [hx]; exact hlt
        · exact hbefore x hx
    · obtain ⟨res, hres, hspec⟩ := ih q
      refine ⟨res, by rw [pickMax_some_cons, if_neg hqp]; exact hres, ?_⟩
      rcases hspec with ⟨hrq, hall⟩ | ⟨l₁, l₂, hsplit, hlt, hbefore, hafter⟩
      · refine Or.inl ⟨hrq, ?_⟩
        intro x hx
        rcases List.mem_cons.mp hx with hx | hx
        · rw [hx]; exact Nat.le_of_not_lt hqp
        · exact hall x hx
      · refine Or.inr ⟨p :: l₁, l₂, by rw [hsplit, List.cons_append], hlt, ?_, hafter⟩
        intro x hx
        rcases List.mem_cons.mp hx with hx | hx
        · rw [hx]; exact Nat.lt_of_le_of_lt (Nat.le_of_not_lt hqp) hlt
        · exact hbefore x hx

/-! ## Lemmas about the aggregation fold -/

/-- The bucket update of the aggregation loop is right-commutative: adding
two documents to the stats in either order gives the same stats (the
core of C8's permutation invariance). -/
theorem addPDoc_comm (z : YearStats) (x y : PDoc) :
    addPDoc (addPDoc z x) y = addPDoc (addPDoc z y) x := by
  obtain ⟨p1, p2, p3, p4, p5, p6⟩ := z
  by_cases hx : x.ltype = "primary" <;> by_cases hy : y.ltype = "primary" <;>
    simp [addPDoc, hx, hy, YearStats.mk.injEq] <;> omega

/-! ## Concrete documents used by witnesses and counterexamples -/

/-- C1 witness document: explicit commencement and repeal dates. -/
def c1Doc : Doc :=
  { commencement_date := some (strT "2020-05-05"),
    repeal_date := some (strT "2021-05-05") }

/-- C4 counterexample: no parseable dates, but an API `year` field (1999)
AND a register id carrying a different year (2006). -/
def c4DocYearField : Doc := { register_id := strT "F2006L09382", year := some 1999 }

/-- C4 counterexample: the `'F'` with the four-digit year is not the leading
character of the register id. -/
def c4DocNonLeading : Doc := { register_id := strT "XF1990A00001" }

/-- C4 witness: a document with no date signal at all. -/
def c4DocNoSignal : Doc := { register_id := strT "ZZZ00001" }

/-- C8 witness documents. -/
def c8DocA : Doc :=
  { register_id := strT "C2001A00001", collection := strT "Act",
    title := strT "Alpha Act 2001", text := strT "a must b" }

def c8DocB : Doc :=
  { register_id := strT "F2005L00002", collection := strT "LegislativeInstrument",
    title := strT "Beta Rules 2005", text := strT "shall" }

/-! ## The claims -/

/-- Claim C1: for every document and reference date, `is_in_force_at`
returns true iff the resolved commencement date is ≤ the reference date
and (there is no parsed repeal date, or the repeal date is strictly after
the reference date).  In particular the lower bound is inclusive, the
repeal bound is exclusive, and absence of repeal data never counts as
repealed. -/
theorem C1_in_force_iff (doc : Doc) (d c : Date)
    (h : resolveCommencement doc = some c) :
    isInForceAt doc d = true ↔
      (dateLE c d = true ∧
        ∀ rdate : Date, parseDate doc.repeal_date = some rdate → dateLT d rdate = true) := by
  unfold isInForceAt inForceShell
  rw [h]
  have hle : dateLE c d = !dateLT d c := rfl
  cases hr : parseDate doc.repeal_date with
  | none =>
    cases hlt : dateLT d c with
    | true => simp [hlt, hle]
    | false => simp [hlt, hle]
  | some rdate =>
    have hre : dateLE rdate d = !dateLT d rdate := rfl
    cases hlt : dateLT d c with
    | true => simp [hlt, hle]
    | false =>
      cases hdr : dateLT d rdate with
      | true => simp [hlt, hle, hre, hdr]
      | false =>
        simp only [hlt, hle, hre, hdr, Bool.not_false, Bool.not_true, if_false,
          Bool.false_eq_true, if_pos, if_neg]
        constructor
        · intro hx
          exact absurd hx (by simp)
        · rintro ⟨-, hall⟩
          have hx := hall rdate rfl
          rw [hx] at hdr
          exact absurd hdr (by simp)

/-- Witness for C1 at a concrete document: commencement 2020-05-05, repeal
2021-05-05; in force exactly at commencement (inclusive), out of force
exactly at repeal (exclusive). -/
theorem C1_in_force_iff_witness :
    isInForceAt c1Doc ⟨2020, 5, 5⟩ = true ∧ isInForceAt c1Doc ⟨2021, 5, 5⟩ = false := by
  constructor
  · refine (C1_in_force_iff c1Doc ⟨2020, 5, 5⟩ ⟨2020, 5, 5⟩ (by decide)).mpr ⟨by decide, ?_⟩
    intro r hr
    have hp : parseDate c1Doc.repeal_date = some ⟨2021, 5, 5⟩ := by decide
    rw [hp] at hr
    simp only [Option.some.injEq] at hr
    rw [← hr]
    decide
  · cases hb : isInForceAt c1Doc ⟨2021, 5, 5⟩ with
    | false => rfl
    | true =>
      have h2 := (C1_in_force_iff c1Doc ⟨2021, 5, 5⟩ ⟨2020, 5, 5⟩ (by decide)).mp hb
      have h3 := h2.2 ⟨2021, 5, 5⟩ (by decide)
      exact absurd h3 (by decide)

/-- Counterexample to claim C4 as stated: the claim's fallback chain omits
the API `year` field (which the code consults before the register id) and
restricts the register-id year to a leading `'C'`/`'F'` (the code searches
anywhere).  `c4DocYearField` (year field 1999, register id year 2006) is
in force on 2000-06-01 under the code but not under the claim's chain;
`c4DocNonLeading` (register id `XF1990A00001`) is in force on 2000-01-01
under the code but unresolvable under the claim's chain. -/
theorem C4_counterexample :
    isInForceAt c4DocYearField ⟨2000, 6, 1⟩ = true ∧
    claimInForceAt c4DocYearField ⟨2000, 6, 1⟩ = false ∧
    isInForceAt c4DocNonLeading ⟨2000, 1, 1⟩ = true ∧
    claimInForceAt c4DocNonLeading ⟨2000, 1, 1⟩ = false := by decide

/-- Claim C4 as amended: the resolution chain is `commencement_date` if
parseable, else `making_date`, else January 1 of the API `year` field
when present and non-zero, else January 1 of the four-digit year
following a `'C'` or `'F'` anywhere in `register_id`; when the whole
chain fails the document is treated as not in force at every reference
date, with no exception. -/
theorem C4_date_fallback_amended :
    (∀ doc : Doc, resolveCommencement doc = amendedResolveCommencement doc) ∧
    (∀ (doc : Doc) (d : Date), resolveCommencement doc = none → isInForceAt doc d = false) := by
  constructor
  · intro doc
    unfold resolveCommencement amendedResolveCommencement apiYearDate
    cases parseDate doc.commencement_date with
    | some c => rfl
    | none =>
      cases parseDate doc.making_date with
      | some m => rfl
      | none =>
        cases doc.year with
        | none => rfl
        | some y =>
          by_cases hy : y = 0
          · simp [hy, Option.orElse]
          · simp [hy, Option.orElse]
  · intro doc d h
    unfold isInForceAt
    rw [h]
    rfl

/-- Witness for C4 (amended): a document with no date signal is silently
out of force. -/
theorem C4_date_fallback_amended_witness :
    isInForceAt c4DocNoSignal ⟨2020, 1, 1⟩ = false :=
  C4_date_fallback_amended.2 c4DocNoSignal ⟨2020, 1, 1⟩ (by decide)

/-- Claim C2: the BC counter masks the negation bigrams `must not` and
`shall not` before counting, so a negated occurrence contributes zero to
every per-word count: `count_bc` gives 0 on "must not comply" and 1 on
"must comply" (and the class counter's `must` bucket agrees), and after
the masking pass no `must not` / `shall not` match remains in the text
the words are counted on. -/
theorem C2_bc_negation_masking :
    countBC (strT "must not comply") = 0 ∧
    countBC (strT "must comply") = 1 ∧
    (bcCountRequirements (strT "must not comply")).by_word =
      [("must", 0), ("shall", 0), ("required", 0)] ∧
    (bcCountRequirements (strT "must comply")).by_word =
      [("must", 1), ("shall", 0), ("required", 0)] ∧
    (∀ toks : List Tok,
      bigramCount isWSsep (strT "must") (strT "not") (bcMaskMandala toks) = 0 ∧
      bigramCount isWSsep (strT "shall") (strT "not") (bcMaskMandala toks) = 0) := by
  refine ⟨by decide, by decide, by decide, by decide, fun toks => ⟨?_, ?_⟩⟩
  · unfold bcMaskMandala
    exact bigramCount_maskBigram_pres isWSsep (strT "must") (strT "not") (strT "__NEG__")
      isWSsep (strT "shall") (strT "not") (by decide) (by decide) _
      (bigramCount_maskBigram_self isWSsep (strT "must") (strT "not") (strT "__NEG__")
        (by decide) (by decide) toks)
  · unfold bcMaskMandala
    exact bigramCount_maskBigram_self isWSsep (strT "shall") (strT "not") (strT "__NEG__")
      (by decide) (by decide) _

/-- Claim C3: the RegData counter counts each `may not` occurrence exactly
once, masks it, and then counts the four single restriction words on the
masked text — so `may not` contributes 1 to its own bucket and 0 to the
single-word buckets, masking `may not` never changes a single word's
count, and (unlike BC) `must not` still counts toward `must`:
`count_regdata "must not comply" = 1`. -/
theorem C3_regdata_may_not :
    countRegdata (strT "may not apply") = 1 ∧
    (regdataCountRestrictions (strT "may not apply")).by_word =
      [("may not", 1), ("shall", 0), ("must", 0), ("required", 0), ("prohibited", 0)] ∧
    countRegdata (strT "may apply") = 0 ∧
    countRegdata (strT "must not comply") = 1 ∧
    (regdataCountRestrictions (strT "must not comply")).by_word =
      [("may not", 0), ("shall", 0), ("must", 1), ("required", 0), ("prohibited", 0)] ∧
    (∀ toks : List Tok,
      bigramCount isOneSpace (strT "may") (strT "not")
        (maskBigram isOneSpace (strT "may") (strT "not") (strT "__X__") toks) = 0) ∧
    (∀ toks : List Tok,
      cw (strT "shall") (maskBigram isOneSpace (strT "may") (strT "not") (strT "__X__") toks) =
        cw (strT "shall") toks ∧
      cw (strT "must") (maskBigram isOneSpace (strT "may") (strT "not") (strT "__X__") toks) =
        cw (strT "must") toks ∧
      cw (strT "required") (maskBigram isOneSpace (strT "may") (strT "not") (strT "__X__") toks) =
        cw (strT "required") toks ∧
      cw (strT "prohibited") (maskBigram isOneSpace (strT "may") (strT "not") (strT "__X__") toks) =
        cw (strT "prohibited") toks) := by
  refine ⟨by decide, by decide, by decide, by decide, by decide, fun toks => ?_, fun toks => ?_⟩
  · exact bigramCount_maskBigram_self isOneSpace (strT "may") (strT "not") (strT "__X__")
      (by decide) (by decide) toks
  · exact ⟨cw_maskBigram_eq isOneSpace (strT "may") (strT "not") (strT "__X__") (strT "shall")
        (by decide) (by decide) (by decide) toks,
      cw_maskBigram_eq isOneSpace (strT "may") (strT "not") (strT "__X__") (strT "must")
        (by decide) (by decide) (by decide) toks,
      cw_maskBigram_eq isOneSpace (strT "may") (strT "not") (strT "__X__") (strT "required")
        (by decide) (by decide) (by decide) toks,
      cw_maskBigram_eq isOneSpace (strT "may") (strT "not") (strT "__X__") (strT "prohibited")
        (by decide) (by decide) (by decide) toks⟩

/-- Claim C5: the subtype classifier is an ordered first-match-wins cascade
(aviation before named categories before generic keywords, default
"Other Instrument"): the Therapeutic Goods title gets the named category,
not the generic "Regulation" that also matches; an aviation tag beats
both a named category and a generic keyword; and an unmatched non-Act
title defaults to "Other Instrument". -/
theorem C5_subtype_cascade :
    getSubtype { title := strT "Therapeutic Goods (Medical Devices) Regulations 2021",
                 collection := strT "LegislativeInstrument" } = "Therapeutic Goods" ∧
    getSubtype { title := strT "Therapeutic Goods (Medical Devices) Regulations 2021",
                 collection := strT "LegislativeInstrument" } ≠ "Regulation" ∧
    getSubtype { title := strT "Airworthiness Directive about Therapeutic Goods Regulations",
                 collection := strT "LegislativeInstrument" } = "Aviation - Airworthiness" ∧
    getSubtype { title := strT "Therapeutic Goods Determination",
                 collection := strT "LegislativeInstrument" } = "Therapeutic Goods" ∧
    getSubtype { title := strT "Gadget Scheme 2021",
                 collection := strT "LegislativeInstrument" } = "Other Instrument" := by
  refine ⟨by decide, by decide, by decide, by decide, by decide⟩

/-- Claim C6: the industry classifier scores each division as 10 × title
matches + matches in the first 3000 characters of the text (3000 ∈
[2000, 5000]); when some division scores positively it returns the first
maximum of the positive-score list taken in the fixed canonical division
order (everything left of the winner scores strictly less, everything
right of it at most as much); when no division scores it returns "X" iff
the cross-cutting pattern matches the combined title + text window, else
"U". -/
theorem C6_industry_classifier (title text : Str) :
    (scoreList title text ≠ [] →
      ∃ c s l₁ l₂, classifyIndustry title text = c ∧
        scoreList title text = l₁ ++ (c, s) :: l₂ ∧
        (∀ p ∈ l₁, p.2 < s) ∧ (∀ p ∈ l₂, p.2 ≤ s)) ∧
    (scoreList title text = [] →
      classifyIndustry title text =
        if 0 < findCount (divPattern crossCuttingKeywords)
            (lowerS (title ++ [' '] ++ text.take 3000)) then "X" else "U") := by
  constructor
  · intro hne
    match hl : scoreList title text with
    | [] => exact absurd hl hne
    | p :: rest =>
      unfold classifyIndustry
      rw [hl, pickMax_none_cons]
      obtain ⟨res, hres, hspec⟩ := pickMax_some_spec rest p
      rw [hres]
      rcases hspec with ⟨hrq, hall⟩ | ⟨l₁, l₂, hsplit, hlt, hbefore, hafter⟩
      · subst hrq
        exact ⟨res.1, res.2, [], rest, rfl, by simp, by simp, hall⟩
      · refine ⟨res.1, res.2, p :: l₁, l₂, rfl, by rw [hsplit, List.cons_append], ?_, hafter⟩
        intro x hx
        rcases List.mem_cons.mp hx with hx | hx
        · rw [hx]; exact hlt
        · exact hbefore x hx
  · intro he
    unfold classifyIndustry
    rw [he]
    rfl

/-- Witness for C6: the title "mining" scores positively (division B wins),
and the no-score fallback fires on keyword-free text. -/
theorem C6_industry_classifier_witness :
    (∃ c s l₁ l₂, classifyIndustry (strT "mining") [] = c ∧
        scoreList (strT "mining") [] = l₁ ++ (c, s) :: l₂ ∧
        (∀ p ∈ l₁, p.2 < s) ∧ (∀ p ∈ l₂, p.2 ≤ s)) ∧
    classifyIndustry (strT "zzz") (strT "zzz") =
      (if 0 < findCount (divPattern crossCuttingKeywords)
          (lowerS (strT "zzz" ++ [' '] ++ (strT "zzz").take 3000)) then "X" else "U") :=
  ⟨(C6_industry_classifier (strT "mining") []).1 (by decide),
   (C6_industry_classifier (strT "zzz") (strT "zzz")).2 (by decide)⟩

/-- Counterexample to claim C7 as stated: the phrase matching of the
exclusion filter is not case-insensitive — the `AD/` rule matches only
the exact substring `"AD/"` or the exact lowercase prefix `"ad/"`, so
the title `"Ad/1"` is not excluded although its lowercasing `"ad/1"`
is. -/
theorem C7_counterexample :
    shouldExclude { title := strT "Ad/1" } = false ∧
    shouldExclude { title := lowerS (strT "Ad/1") } = true := by decide

/-- Claim C7 as amended: `should_exclude` is the logical OR of the
civil-aviation-exclusive predicate and the tariff-concession predicate,
each a pure deterministic function of the title only, using
substring/prefix phrase matching that is case-insensitive for all phrases
except the `AD/` and `CAO ` checks (exact substring `"AD/"`/`"CAO "` or
exact lowercase prefix `"ad/"`/`"cao "`); every document titled
"AD/2020/01 - Airworthiness Directive" is excluded. -/
theorem C7_exclusion_filter_amended :
    (∀ doc : Doc, shouldExclude doc = (isCivilAviationExclusive doc || isTariffConcession doc)) ∧
    (∀ d1 d2 : Doc, d1.title = d2.title → shouldExclude d1 = shouldExclude d2) ∧
    (∀ doc : Doc, doc.title = strT "AD/2020/01 - Airworthiness Directive" →
      shouldExclude doc = true) := by
  refine ⟨fun doc => rfl, ?_, ?_⟩
  · intro d1 d2 h
    unfold shouldExclude isCivilAviationExclusive isTariffConcession
    rw [h]
  · intro doc h
    unfold shouldExclude isCivilAviationExclusive isTariffConcession
    rw [h]
    decide

/-- Witness for C7 (amended), applied at a concrete document. -/
theorem C7_exclusion_filter_amended_witness :
    shouldExclude { title := strT "AD/2020/01 - Airworthiness Directive",
                    collection := strT "LegislativeInstrument" } = true :=
  C7_exclusion_filter_amended.2.2 _ rfl

/-- Claim C8: the per-year aggregation depends only on the multiset of
input documents (and the cutoff): any permutation of the document list
yields identical per-category totals.  (Re-running on the same list is
the `docs' := docs` instance; the aggregation is a pure function.) -/
theorem C8_aggregation_permutation_invariant (docs docs' : List Doc) (cutoff : Nat)
    (h : docs.Perm docs') :
    aggregateMandala docs cutoff = aggregateMandala docs' cutoff := by
  unfold aggregateMandala processDocs
  exact List.Perm.foldl_eq' (((h.filter _).filterMap _).filter _)
    (fun x _ y _ z => addPDoc_comm z x y) emptyStats

/-- Witness for C8: swapping two concrete documents leaves the totals
unchanged. -/
theorem C8_aggregation_permutation_invariant_witness :
    aggregateMandala [c8DocA, c8DocB] 2025 = aggregateMandala [c8DocB, c8DocA] 2025 :=
  C8_aggregation_permutation_invariant [c8DocA, c8DocB] [c8DocB, c8DocA] 2025
    (List.Perm.swap c8DocB c8DocA [])

/-- Claim C9: on every text the RegData count dominates the BC count —
BC's negation masking only removes occurrences that RegData still counts,
RegData's `may not` masking removes none of its single words, and RegData
additionally counts `prohibited` and `may not`. -/
theorem C9_regdata_dominates_bc (text : Str) : countBC text ≤ countRegdata text := by
  by_cases he : text = []
  · simp [he, countBC, countRegdata]
  · rw [countBC, countRegdata, if_neg he, if_neg he]
    have hmust : cw (strT "must") (bcMaskMandala (tokenize (lowerS text))) ≤
        cw (strT "must") (tokenize (lowerS text)) := by
      unfold bcMaskMandala
      calc cw (strT "must") (maskBigram isWSsep (strT "shall") (strT "not") (strT "__NEG__")
              (maskBigram isWSsep (strT "must") (strT "not") (strT "__NEG__")
                (tokenize (lowerS text))))
          = cw (strT "must") (maskBigram isWSsep (strT "must") (strT "not") (strT "__NEG__")
              (tokenize (lowerS text))) :=
            cw_maskBigram_eq isWSsep (strT "shall") (strT "not") (strT "__NEG__") (strT "must")
              (by decide) (by decide) (by decide) _
        _ ≤ cw (strT "must") (tokenize (lowerS text)) :=
            cw_maskBigram_le isWSsep (strT "must") (strT "not") (strT "__NEG__") (strT "must")
              (by decide) _
    have hshall : cw (strT "shall") (bcMaskMandala (tokenize (lowerS text))) ≤
        cw (strT "shall") (tokenize (lowerS text)) := by
      unfold bcMaskMandala
      calc cw (strT "shall") (maskBigram isWSsep (strT "shall") (strT "not") (strT "__NEG__")
              (maskBigram isWSsep (strT "must") (strT "not") (strT "__NEG__")
                (tokenize (lowerS text))))
          ≤ cw (strT "shall") (maskBigram isWSsep (strT "must") (strT "not") (strT "__NEG__")
              (tokenize (lowerS text))) :=
            cw_maskBigram_le isWSsep (strT "shall") (strT "not") (strT "__NEG__") (strT "shall")
              (by decide) _
        _ = cw (strT "shall") (tokenize (lowerS text)) :=
            cw_maskBigram_eq isWSsep (strT "must") (strT "not") (strT "__NEG__") (strT "shall")
              (by decide) (by decide) (by decide) _
    have hreq : cw (strT "required") (bcMaskMandala (tokenize (lowerS text))) =
        cw (strT "required") (tokenize (lowerS text)) := by
      unfold bcMaskMandala
      rw [cw_maskBigram_eq isWSsep (strT "shall") (strT "not") (strT "__NEG__") (strT "required")
            (by decide) (by decide) (by decide) _,
          cw_maskBigram_eq isWSsep (strT "must") (strT "not") (strT "__NEG__") (strT "required")
            (by decide) (by decide) (by decide) _]
    have h2s := cw_maskBigram_eq isOneSpace (strT "may") (strT "not") (strT "__X__")
      (strT "shall") (by decide) (by decide) (by decide) (tokenize (lowerS text))
    have h2m := cw_maskBigram_eq isOneSpace (strT "may") (strT "not") (strT "__X__")
      (strT "must") (by decide) (by decide) (by decide) (tokenize (lowerS text))
    have h2r := cw_maskBigram_eq isOneSpace (strT "may") (strT "not") (strT "__X__")
      (strT "required") (by decide) (by decide) (by decide) (tokenize (lowerS text))
    simp only [h2s, h2m, h2r]
    omega

/-- Claim C10: both counter classes keep the breakdown-consistency
invariant — the `total` field equals the sum of the `by_word` values —
and empty text yields total 0 with an empty breakdown. -/
theorem C10_breakdown_consistency :
    (∀ text : Str, (bcCountRequirements text).total =
      ((bcCountRequirements text).by_word.map Prod.snd).sum) ∧
    (∀ text : Str, (regdataCountRestrictions text).total =
      ((regdataCountRestrictions text).by_word.map Prod.snd).sum) ∧
    bcCountRequirements [] = ⟨0, []⟩ ∧
    regdataCountRestrictions [] = ⟨0, []⟩ := by
  refine ⟨fun text => ?_, fun text => ?_, rfl, rfl⟩
  · by_cases he : text = []
    · simp [he, bcCountRequirements]
    · simp [bcCountRequirements, if_neg he]
  · by_cases he : text = []
    · simp [he, regdataCountRestrictions]
    · simp [regdataCountRestrictions, if_neg he]

end RegCost
